import Mathlib

set_option maxRecDepth 100000
set_option maxHeartbeats 2000000

/-!
Verification of `scripts/generate_contract_param_methods.py`, a code generator
that emits, for every Solidity integer bit width in `range(8, 257, 8)`, four
Rust method stubs (signed scalar, unsigned scalar, signed array, unsigned
array) appending typed arguments to a `ContractFunctionParameters` builder,
and writes them to `output.txt` grouped by category.

The script is pure string generation plus one file write, so it is embedded
as total Lean functions on `String`/`List String`, with a small explicit
model of the fallible file system for the I/O-failure claims.
-/

/-- The bit widths iterated by the main loop: `range(8, 257, 8)` in the
source, i.e. 8, 16, 24, ..., 256. -/
def widths : List Nat := List.range' 8 32 8

/-- Text of one signed-scalar record, as concatenated in the first
`int_versions.append(...)` call of `add_methods_for_bit_width`. -/
def int_version_text (solidity_bit_width : Nat) (rust_signed_type : String) : String :=
  "/// Add an `int" ++ toString solidity_bit_width ++ "` argument to the `ContractFunctionParameters`\n" ++
  "#[allow(dead_code)]\n" ++
  "pub fn add_int" ++ toString solidity_bit_width ++ "(&mut self, val: " ++ rust_signed_type ++ ") -> &mut Self \x7b\n" ++
  "    self.add_int(&val, \"int" ++ toString solidity_bit_width ++ "\", " ++ toString (solidity_bit_width / 8) ++ ")\n" ++
  "\x7d\n"

/-- Text of one unsigned-scalar record, as concatenated in the
`uint_versions.append(...)` call. -/
def uint_version_text (solidity_bit_width : Nat) (rust_unsigned_type : String) : String :=
  "/// Add a `uint" ++ toString solidity_bit_width ++ "` argument to the `ContractFunctionParameters`\n" ++
  "#[allow(dead_code)]\n" ++
  "pub fn add_uint" ++ toString solidity_bit_width ++ "(&mut self, val: " ++ rust_unsigned_type ++ ") -> &mut Self \x7b\n" ++
  "    self.add_int(&val, \"uint" ++ toString solidity_bit_width ++ "\", " ++ toString (solidity_bit_width / 8) ++ ")\n" ++
  "\x7d\n"

/-- Text of one signed-array record, as concatenated in the
`int_array_versions.append(...)` call. -/
def int_array_version_text (solidity_bit_width : Nat) (rust_signed_type : String) : String :=
  "/// Add an `int" ++ toString solidity_bit_width ++ "[]` argument to the `ContractFunctionParameters`\n" ++
  "#[allow(dead_code)]\n" ++
  "pub fn add_int" ++ toString solidity_bit_width ++ "_array(&mut self, values: &[" ++ rust_signed_type ++ "]) -> &mut Self \x7b\n" ++
  "    self.add_int_array(values, \"int" ++ toString solidity_bit_width ++ "[]\", " ++ toString (solidity_bit_width / 8) ++ ")\n" ++
  "\x7d\n"

/-- Text of one unsigned-array record, as concatenated in the
`uint_array_versions.append(...)` call. -/
def uint_array_version_text (solidity_bit_width : Nat) (rust_unsigned_type : String) : String :=
  "/// Add a `uint" ++ toString solidity_bit_width ++ "[]` argument to the `ContractFunctionParameters`\n" ++
  "#[allow(dead_code)]\n" ++
  "pub fn add_uint" ++ toString solidity_bit_width ++ "_array(&mut self, values: &[" ++ rust_unsigned_type ++ "]) -> &mut Self \x7b\n" ++
  "    self.add_int_array(values, \"uint" ++ toString solidity_bit_width ++ "[]\", " ++ toString (solidity_bit_width / 8) ++ ")\n" ++
  "\x7d\n"

/-- The four global accumulator lists of the script
(`int_versions`, `uint_versions`, `int_array_versions`, `uint_array_versions`). -/
structure GenState where
  int_versions : List String
  uint_versions : List String
  int_array_versions : List String
  uint_array_versions : List String

/-- `add_methods_for_bit_width`: appends one rendered record to each of the
four accumulator lists. -/
def add_methods_for_bit_width (s : GenState) (solidity_bit_width : Nat)
    (rust_signed_type rust_unsigned_type : String) : GenState :=
  { int_versions := s.int_versions ++ [int_version_text solidity_bit_width rust_signed_type],
    uint_versions := s.uint_versions ++ [uint_version_text solidity_bit_width rust_unsigned_type],
    int_array_versions := s.int_array_versions ++ [int_array_version_text solidity_bit_width rust_signed_type],
    uint_array_versions := s.uint_array_versions ++ [uint_array_version_text solidity_bit_width rust_unsigned_type] }

/-- The body of the main loop `for bit_width in range(8, 257, 8)`: the
if/elif chain choosing the Rust type pair for this width. -/
def loop_body (s : GenState) (bit_width : Nat) : GenState :=
  if bit_width ≤ 8 then add_methods_for_bit_width s bit_width "i8" "u8"
  else if bit_width ≤ 16 then add_methods_for_bit_width s bit_width "i16" "u16"
  else if bit_width ≤ 32 then add_methods_for_bit_width s bit_width "i32" "u32"
  else if bit_width ≤ 64 then add_methods_for_bit_width s bit_width "i64" "u64"
  else if bit_width ≤ 128 then add_methods_for_bit_width s bit_width "i128" "u128"
  else add_methods_for_bit_width s bit_width "BigInt" "BigUint"

/-- The four lists as they stand at process start: all empty. -/
def init_state : GenState :=
  { int_versions := [], uint_versions := [], int_array_versions := [], uint_array_versions := [] }

/-- The main loop `for bit_width in range(8, 257, 8)`, run from the four
empty lists. -/
def genState : GenState := widths.foldl loop_body init_state

/-- The if/elif chain of the main loop, factored as a function from bit width
to the (signed, unsigned) Rust type pair it selects. -/
def rustTypePairOf (bit_width : Nat) : String × String :=
  if bit_width ≤ 8 then ("i8", "u8")
  else if bit_width ≤ 16 then ("i16", "u16")
  else if bit_width ≤ 32 then ("i32", "u32")
  else if bit_width ≤ 64 then ("i64", "u64")
  else if bit_width ≤ 128 then ("i128", "u128")
  else ("BigInt", "BigUint")

/-- One output loop `for v in vs: f.write(v + "\n")`, appending to the file
contents accumulated so far. -/
def writeLoop (f : String) (vs : List String) : String :=
  vs.foldl (fun acc v => acc ++ (v ++ "\n")) f

/-- All records in the order they are written to the file: the
`int_versions` loop, then `int_array_versions`, then `uint_versions`,
then `uint_array_versions`. -/
def records : List String :=
  genState.int_versions ++ genState.int_array_versions ++
  genState.uint_versions ++ genState.uint_array_versions

/-- `open("output.txt", "w")` truncates: whatever the file held before,
writing starts from empty contents. -/
def openTruncate (_prior : String) : String := ""

/-- Final contents of `output.txt` when the file previously held `prior`:
the file is opened in mode "w" (truncating) and the four write loops run in
the order they appear in the script. -/
def runWithPrior (prior : String) : String :=
  writeLoop
    (writeLoop
      (writeLoop
        (writeLoop (openTruncate prior) genState.int_versions)
        genState.int_array_versions)
      genState.uint_versions)
    genState.uint_array_versions

/-- The complete output text of the generator. -/
def output : String := runWithPrior ""

/-- The generator as a function of its (empty) input: the script reads
nothing — no arguments, no environment, no file input. -/
def generate (_input : Unit) : String := output

/-- Boolean list-prefix test on character lists. -/
def listPrefixB : List Char → List Char → Bool
  | [], _ => true
  | _ :: _, [] => false
  | a :: as, b :: bs => a == b && listPrefixB as bs

/-- Boolean list-infix (contiguous substring) test on character lists. -/
def listInfixB (p : List Char) : List Char → Bool
  | [] => p.isEmpty
  | b :: rest => listPrefixB p (b :: rest) || listInfixB p rest

/-- `strContains p s` holds when `p` occurs contiguously inside `s`. -/
def strContains (p s : String) : Bool := listInfixB p.data s.data

/-- `strStarts p s` holds when `s` begins with `p`. -/
def strStarts (p s : String) : Bool := listPrefixB p.data s.data

/-- `strEnds p s` holds when `s` ends with `p`. -/
def strEnds (p s : String) : Bool := listPrefixB p.data.reverse s.data.reverse

/-- Split a character list at every newline character; a trailing newline
yields a final empty line, matching `str.split("\n")` semantics. -/
def linesOf : List Char → List (List Char)
  | [] => [[]]
  | c :: rest =>
    if c == '\n' then [] :: linesOf rest
    else
      match linesOf rest with
      | [] => [[c]]
      | l :: ls => (c :: l) :: ls

/-- A record is well-shaped when it consists of exactly five lines — a
doc-comment line, the `#[allow(dead_code)]` line, a `pub fn` declaration
line, an indented body line, and a closing-brace line — each ended by a
newline (so splitting yields a sixth, empty, trailing piece). -/
def recordShapeB (r : String) : Bool :=
  match linesOf r.data with
  | [l0, l1, l2, l3, l4, l5] =>
    listPrefixB "/// ".data l0 &&
    (l1 == "#[allow(dead_code)]".data) &&
    listPrefixB "pub fn ".data l2 &&
    listPrefixB "    self.add_int".data l3 &&
    (l4 == "\x7d".data) &&
    l5.isEmpty
  | _ => false

/-- The function name a record declares: the text of its third line between
`pub fn ` and the first opening parenthesis. -/
def declared_name (r : String) : List Char :=
  match linesOf r.data with
  | _ :: _ :: decl :: _ => (decl.drop 7).takeWhile (fun c => !(c == '('))
  | _ => []

/-- File-system model for the one effectful part of the script: opening the
destination for writing may fail, and writing to it may fail; the script
installs no handler, so either failure propagates and aborts the run. -/
structure FsEnv where
  open_ok : Bool
  write_ok : Bool

/-- Run the generator against a file system that may refuse the open or the
writes: error on an I/O failure, otherwise the full output text. -/
def run_generator (e : FsEnv) : Except String String :=
  if e.open_ok then
    if e.write_ok then Except.ok output
    else Except.error "could not write output.txt"
  else Except.error "could not open output.txt"

/-- Process exit status: 0 on success, 1 when the run aborts with an
uncaught I/O error. -/
def exit_code (e : FsEnv) : Nat :=
  match run_generator e with
  | Except.ok _ => 0
  | Except.error _ => 1

/-- The range rule of the specification, stated in its own words: width ≤ 8
maps to the 8-bit pair, ≤ 16 to 16-bit, ≤ 32 to 32-bit, ≤ 64 to 64-bit,
≤ 128 to 128-bit, and any width above 128 to the arbitrary-precision pair. -/
def spec_type_rule (w : Nat) : String × String :=
  if w ≤ 8 then ("i8", "u8")
  else if w ≤ 16 then ("i16", "u16")
  else if w ≤ 32 then ("i32", "u32")
  else if w ≤ 64 then ("i64", "u64")
  else if w ≤ 128 then ("i128", "u128")
  else ("BigInt", "BigUint")

/-- `bodyLineEndsWith arg r` holds when the body line of record `r` (its
fourth line, the delegated call) ends with the text `arg`, i.e. `arg` is the
final argument of the call followed by the closing parenthesis. -/
def bodyLineEndsWith (arg r : String) : Bool :=
  match linesOf r.data with
  | [_, _, _, l3, _, _] => listPrefixB arg.data.reverse l3.reverse
  | _ => false

/-- The function names determined by the int/uint prefix, the width, and the
presence of the `_array` suffix, in the order the records are written. -/
def expected_names : List String :=
  widths.map (fun w => "add_int" ++ toString w) ++
  widths.map (fun w => "add_int" ++ toString w ++ "_array") ++
  widths.map (fun w => "add_uint" ++ toString w) ++
  widths.map (fun w => "add_uint" ++ toString w ++ "_array")

/-- Whether a run of the generator against file system `e` succeeded. -/
def run_succeeds (e : FsEnv) : Bool :=
  match run_generator e with
  | Except.ok _ => true
  | Except.error _ => false

/-- Injective base-256 encoding of an ASCII character list as a natural
number, used to compare the 128 declared names cheaply. -/
def name_code : List Char → Nat :=
  fun l => l.foldl (fun a c => a * 256 + c.toNat % 256) 0

theorem writeLoop_append (f : String) (a b : List String) :
    writeLoop f (a ++ b) = writeLoop (writeLoop f a) b := by
  simp [writeLoop, List.foldl_append]

theorem loop_body_eq (s : GenState) (w : Nat) :
    loop_body s w =
      add_methods_for_bit_width s w (rustTypePairOf w).1 (rustTypePairOf w).2 := by
  simp only [loop_body, rustTypePairOf]
  split_ifs <;> rfl

theorem foldl_int_versions (ws : List Nat) (s : GenState) :
    (ws.foldl loop_body s).int_versions =
      s.int_versions ++ ws.map (fun w => int_version_text w (rustTypePairOf w).1) := by
  induction ws generalizing s with
  | nil => simp
  | cons w ws ih =>
    rw [List.foldl_cons, ih, loop_body_eq]
    simp [add_methods_for_bit_width]

theorem foldl_uint_versions (ws : List Nat) (s : GenState) :
    (ws.foldl loop_body s).uint_versions =
      s.uint_versions ++ ws.map (fun w => uint_version_text w (rustTypePairOf w).2) := by
  induction ws generalizing s with
  | nil => simp
  | cons w ws ih =>
    rw [List.foldl_cons, ih, loop_body_eq]
    simp [add_methods_for_bit_width]

theorem foldl_int_array_versions (ws : List Nat) (s : GenState) :
    (ws.foldl loop_body s).int_array_versions =
      s.int_array_versions ++
        ws.map (fun w => int_array_version_text w (rustTypePairOf w).1) := by
  induction ws generalizing s with
  | nil => simp
  | cons w ws ih =>
    rw [List.foldl_cons, ih, loop_body_eq]
    simp [add_methods_for_bit_width]

theorem foldl_uint_array_versions (ws : List Nat) (s : GenState) :
    (ws.foldl loop_body s).uint_array_versions =
      s.uint_array_versions ++
        ws.map (fun w => uint_array_version_text w (rustTypePairOf w).2) := by
  induction ws generalizing s with
  | nil => simp
  | cons w ws ih =>
    rw [List.foldl_cons, ih, loop_body_eq]
    simp [add_methods_for_bit_width]

theorem output_records : output = writeLoop "" records := by
  show writeLoop _ _ = _
  simp only [records, writeLoop, List.foldl_append]
  rfl

theorem string_data_injective : Function.Injective String.data :=
  fun _ _ h => String.ext h

theorem int_versions_eq : genState.int_versions =
    widths.map (fun w => int_version_text w (rustTypePairOf w).1) := by
  simp [genState, foldl_int_versions, init_state]

theorem int_array_versions_eq : genState.int_array_versions =
    widths.map (fun w => int_array_version_text w (rustTypePairOf w).1) := by
  simp [genState, foldl_int_array_versions, init_state]

theorem uint_versions_eq : genState.uint_versions =
    widths.map (fun w => uint_version_text w (rustTypePairOf w).2) := by
  simp [genState, foldl_uint_versions, init_state]

theorem uint_array_versions_eq : genState.uint_array_versions =
    widths.map (fun w => uint_array_version_text w (rustTypePairOf w).2) := by
  simp [genState, foldl_uint_array_versions, init_state]

/-- C1: every generated record resolves its underlying Rust type pair from
the bit width by the range rule (≤8 → i8/u8, ≤16 → i16/u16, ≤32 → i32/u32,
≤64 → i64/u64, ≤128 → i128/u128, >128 → BigInt/BigUint); width 64 resolves
to the 64-bit pair, and the mapping is total over widths 8..256 step 8,
with each record's parameter typed by the resolved pair. -/
theorem type_pair_resolution :
    (∀ w : Nat, rustTypePairOf w = spec_type_rule w) ∧
    rustTypePairOf 64 = ("i64", "u64") ∧
    widths.map rustTypePairOf =
      [("i8", "u8"), ("i16", "u16"), ("i32", "u32"), ("i32", "u32"),
       ("i64", "u64"), ("i64", "u64"), ("i64", "u64"), ("i64", "u64"),
       ("i128", "u128"), ("i128", "u128"), ("i128", "u128"), ("i128", "u128"),
       ("i128", "u128"), ("i128", "u128"), ("i128", "u128"), ("i128", "u128"),
       ("BigInt", "BigUint"), ("BigInt", "BigUint"), ("BigInt", "BigUint"),
       ("BigInt", "BigUint"), ("BigInt", "BigUint"), ("BigInt", "BigUint"),
       ("BigInt", "BigUint"), ("BigInt", "BigUint"), ("BigInt", "BigUint"),
       ("BigInt", "BigUint"), ("BigInt", "BigUint"), ("BigInt", "BigUint"),
       ("BigInt", "BigUint"), ("BigInt", "BigUint"), ("BigInt", "BigUint"),
       ("BigInt", "BigUint")] ∧
    ((widths.zip genState.int_versions).all (fun p =>
        strContains ("val: " ++ (rustTypePairOf p.1).1 ++ ")") p.2) &&
     (widths.zip genState.uint_versions).all (fun p =>
        strContains ("val: " ++ (rustTypePairOf p.1).2 ++ ")") p.2) &&
     (widths.zip genState.int_array_versions).all (fun p =>
        strContains ("values: &[" ++ (rustTypePairOf p.1).1 ++ "])") p.2) &&
     (widths.zip genState.uint_array_versions).all (fun p =>
        strContains ("values: &[" ++ (rustTypePairOf p.1).2 ++ "])") p.2)) = true :=
  ⟨fun _ => rfl, rfl, by decide, by decide⟩

/-- C2: the generator produces exactly 32 records in each of the four
categories, one per bit width in {8, 16, ..., 256} (32 distinct widths),
for 128 records in total. -/
theorem record_counts :
    genState.int_versions.length = 32 ∧
    genState.int_array_versions.length = 32 ∧
    genState.uint_versions.length = 32 ∧
    genState.uint_array_versions.length = 32 ∧
    records.length = 128 ∧
    widths.length = 32 ∧
    widths.Nodup := by
  refine ⟨by decide, by decide, by decide, by decide, by decide, by decide, by decide⟩

/-- C3: every generated width is a multiple of 8, so width / 8 is exact, and
in every record the last argument of the delegated call is exactly the byte
count width / 8; in particular width 24 yields "3" and width 256 yields
"32". -/
theorem byte_count_exact :
    widths.all (fun w => w % 8 == 0 && (w / 8) * 8 == w) = true ∧
    ((widths.zip genState.int_versions).all (fun p =>
        bodyLineEndsWith (", " ++ toString (p.1 / 8) ++ ")") p.2) &&
     (widths.zip genState.uint_versions).all (fun p =>
        bodyLineEndsWith (", " ++ toString (p.1 / 8) ++ ")") p.2) &&
     (widths.zip genState.int_array_versions).all (fun p =>
        bodyLineEndsWith (", " ++ toString (p.1 / 8) ++ ")") p.2) &&
     (widths.zip genState.uint_array_versions).all (fun p =>
        bodyLineEndsWith (", " ++ toString (p.1 / 8) ++ ")") p.2)) = true ∧
    toString (24 / 8) = "3" ∧
    toString (256 / 8) = "32" :=
  ⟨by decide, by decide, rfl, rfl⟩

/-- C4: the output is the four category blocks written contiguously in the
fixed order signed-scalar, signed-array, unsigned-scalar, unsigned-array,
and each block lists its records in strictly increasing bit-width order
8, 16, ..., 256, with no reordering, deduplication, or mutation. -/
theorem output_block_structure :
    genState.int_versions =
      widths.map (fun w => int_version_text w (rustTypePairOf w).1) ∧
    genState.int_array_versions =
      widths.map (fun w => int_array_version_text w (rustTypePairOf w).1) ∧
    genState.uint_versions =
      widths.map (fun w => uint_version_text w (rustTypePairOf w).2) ∧
    genState.uint_array_versions =
      widths.map (fun w => uint_array_version_text w (rustTypePairOf w).2) ∧
    records = genState.int_versions ++ genState.int_array_versions ++
      genState.uint_versions ++ genState.uint_array_versions ∧
    output = writeLoop "" records ∧
    List.Pairwise (· < ·) widths :=
  ⟨int_versions_eq, int_array_versions_eq, uint_versions_eq,
   uint_array_versions_eq, rfl, output_records, by decide⟩

/-- C5: for every width w the records declare functions add_int<w>,
add_uint<w>, add_int<w>_array and add_uint<w>_array, with documentation
referencing int<w>, uint<w>, int<w>[] and uint<w>[] respectively; in
particular the width-24 array records are add_int24_array documenting
int24[] and add_uint24_array documenting uint24[]. -/
theorem naming_correct :
    ((widths.zip genState.int_versions).all (fun p =>
        strContains ("pub fn add_int" ++ toString p.1 ++ "(") p.2 &&
        strContains ("`int" ++ toString p.1 ++ "`") p.2) &&
     (widths.zip genState.uint_versions).all (fun p =>
        strContains ("pub fn add_uint" ++ toString p.1 ++ "(") p.2 &&
        strContains ("`uint" ++ toString p.1 ++ "`") p.2) &&
     (widths.zip genState.int_array_versions).all (fun p =>
        strContains ("pub fn add_int" ++ toString p.1 ++ "_array(") p.2 &&
        strContains ("`int" ++ toString p.1 ++ "[]`") p.2) &&
     (widths.zip genState.uint_array_versions).all (fun p =>
        strContains ("pub fn add_uint" ++ toString p.1 ++ "_array(") p.2 &&
        strContains ("`uint" ++ toString p.1 ++ "[]`") p.2)) = true ∧
    (genState.int_array_versions.drop 2).head? =
      some (int_array_version_text 24 "i32") ∧
    (strContains "pub fn add_int24_array(" (int_array_version_text 24 "i32") &&
     strContains "`int24[]`" (int_array_version_text 24 "i32")) = true ∧
    (genState.uint_array_versions.drop 2).head? =
      some (uint_array_version_text 24 "u32") ∧
    (strContains "pub fn add_uint24_array(" (uint_array_version_text 24 "u32") &&
     strContains "`uint24[]`" (uint_array_version_text 24 "u32")) = true :=
  ⟨by decide, by decide, by decide, by decide, by decide⟩

/-- C6: the first record written is the add_int8 method, documented as int8
and delegating with byte count 1, and the last record written is the
add_uint256_array method, documented as uint256[] and delegating with byte
count 32; width 8 is generated like every other width. -/
theorem first_last_record :
    records.head? = some (int_version_text 8 "i8") ∧
    records.getLast? = some (uint_array_version_text 256 "BigUint") ∧
    strStarts (int_version_text 8 "i8") output = true ∧
    output = writeLoop "" records ∧
    (strContains "pub fn add_int8(" (int_version_text 8 "i8") &&
     strContains "`int8`" (int_version_text 8 "i8") &&
     bodyLineEndsWith ", 1)" (int_version_text 8 "i8")) = true ∧
    (strContains "pub fn add_uint256_array(" (uint_array_version_text 256 "BigUint") &&
     strContains "`uint256[]`" (uint_array_version_text 256 "BigUint") &&
     bodyLineEndsWith ", 32)" (uint_array_version_text 256 "BigUint")) = true ∧
    widths.head? = some 8 :=
  ⟨by decide, by decide, by decide, output_records, by decide, by decide, by decide⟩

/-- C7: the generator reads no input, so it is deterministic and idempotent:
every run yields the same output text, the fixed string obtained by writing
the same 128 records in the same order. -/
theorem deterministic_generation :
    (∀ a b : Unit, generate a = generate b) ∧
    generate () = output ∧
    (∀ prior₁ prior₂ : String, runWithPrior prior₁ = runWithPrior prior₂) ∧
    records.length = 128 :=
  ⟨fun _ _ => rfl, rfl, fun _ _ => rfl, by decide⟩

/-- C8: every record consists of exactly a doc-comment line, the
dead-code-suppression line, one function-declaration line, one body line and
one closing-brace line, contains no blank line of its own, and the writer
appends exactly one blank line after each record; the destination is
truncated on open, so the result never depends on prior file contents. -/
theorem record_shape_blank_separation :
    records.all (fun r =>
      recordShapeB r && strEnds "\x7d\n" r && !(strContains "\n\n" r)) = true ∧
    output = writeLoop "" records ∧
    (∀ prior : String, runWithPrior prior = output) :=
  ⟨by decide, output_records, fun _ => rfl⟩

/-- C9: the run fails exactly when the destination file cannot be opened or
written, in which case it aborts with exit status 1; on success it exits
with status 0 and the file holds the full output; there is no other failure
mode. -/
theorem io_failure_iff :
    (∀ e : FsEnv, run_succeeds e = (e.open_ok && e.write_ok)) ∧
    (∀ e : FsEnv, exit_code e = if e.open_ok && e.write_ok then 0 else 1) ∧
    (∀ e : FsEnv, (exit_code e == 0) = run_succeeds e) ∧
    run_generator { open_ok := true, write_ok := true } = Except.ok output ∧
    exit_code { open_ok := false, write_ok := true } = 1 ∧
    exit_code { open_ok := true, write_ok := false } = 1 := by
  refine ⟨?_, ?_, ?_, rfl, rfl, rfl⟩ <;>
    exact fun e => by obtain ⟨o, w⟩ := e; cases o <;> cases w <;> rfl

/-- C10: the 128 declared function names are pairwise distinct: each is
determined by the int/uint prefix, the width, and the optional _array
suffix, and no two records share one. -/
theorem generated_names_distinct :
    records.map declared_name = expected_names.map String.data ∧
    expected_names.Nodup ∧
    (records.map declared_name).Nodup := by
  have h1 : records.map declared_name = expected_names.map String.data := by decide
  have hm : ((expected_names.map String.data).map name_code) =
    [7017844480303592504, 1796568186957719679286, 1796568186957719679540,
     1796568186957719679794, 1796568186957719680048, 1796568186957719680056,
     1796568186957719680310, 1796568186957719680564, 1796568186957719680818,
     1796568186957719681072, 1796568186957719681080, 1796568186957719681334,
     459921455861176237895732, 459921455861176237895986, 459921455861176237896240,
     459921455861176237896248, 459921455861176237896502, 459921455861176237896756,
     459921455861176237897010, 459921455861176237897264, 459921455861176237897272,
     459921455861176237897526, 459921455861176237897780, 459921455861176237898034,
     459921455861176237961264, 459921455861176237961272, 459921455861176237961526,
     459921455861176237961780, 459921455861176237962034, 459921455861176237962288,
     459921455861176237962296, 459921455861176237962550, 1975347611652459459876681875087737,
     505688988583029621212484655675236729, 505688988583029621283979299759743353, 505688988583029621355473943844249977,
     505688988583029621426968587928756601, 505688988583029621429220387742441849, 505688988583029621500715031826948473,
     505688988583029621572209675911455097, 505688988583029621643704319995961721, 505688988583029621715198964080468345,
     505688988583029621717450763894153593, 505688988583029621788945407978660217, 129456381077255583029951620592597885305,
     129456381077255583030023115236682391929, 129456381077255583030094609880766898553, 129456381077255583030096861680580583801,
     129456381077255583030168356324665090425, 129456381077255583030239850968749597049, 129456381077255583030311345612834103673,
     129456381077255583030382840256918610297, 129456381077255583030385092056732295545, 129456381077255583030456586700816802169,
     129456381077255583030528081344901308793, 129456381077255583030599575988985815417, 129456381077255583048397238766400594297,
     129456381077255583048399490566214279545, 129456381077255583048470985210298786169, 129456381077255583048542479854383292793,
     129456381077255583048613974498467799417, 129456381077255583048685469142552306041, 129456381077255583048687720942365991289,
     129456381077255583048759215586450497913, 1796568187009175024696, 459921455874348806320438,
     459921455874348806320692, 459921455874348806320946, 459921455874348806321200,
     459921455874348806321208, 459921455874348806321462, 459921455874348806321716,
     459921455874348806321970, 459921455874348806322224, 459921455874348806322232,
     459921455874348806322486, 117739892703833294418030644, 117739892703833294418030898,
     117739892703833294418031152, 117739892703833294418031160, 117739892703833294418031414,
     117739892703833294418031668, 117739892703833294418031922, 117739892703833294418032176,
     117739892703833294418032184, 117739892703833294418032438, 117739892703833294418032692,
     117739892703833294418032946, 117739892703833294418096176, 117739892703833294418096184,
     117739892703833294418096438, 117739892703833294418096692, 117739892703833294418096946,
     117739892703833294418097200, 117739892703833294418097208, 117739892703833294418097462,
     505688988597513013363403165782925689, 129456381080963331420515264536081752441, 129456381080963331420586759180166259065,
     129456381080963331420658253824250765689, 129456381080963331420729748468335272313, 129456381080963331420732000268148957561,
     129456381080963331420803494912233464185, 129456381080963331420874989556317970809, 129456381080963331420946484200402477433,
     129456381080963331421017978844486984057, 129456381080963331421020230644300669305, 129456381080963331421091725288385175929,
     33140833556726612843651463269976665907577, 33140833556726612843651534764620750414201, 33140833556726612843651606259264834920825,
     33140833556726612843651608511064648606073, 33140833556726612843651680005708733112697, 33140833556726612843651751500352817619321,
     33140833556726612843651822994996902125945, 33140833556726612843651894489640986632569, 33140833556726612843651896741440800317817,
     33140833556726612843651968236084884824441, 33140833556726612843652039730728969331065, 33140833556726612843652111225373053837689,
     33140833556726612843669908888150468616569, 33140833556726612843669911139950282301817, 33140833556726612843669982634594366808441,
     33140833556726612843670054129238451315065, 33140833556726612843670125623882535821689, 33140833556726612843670197118526620328313,
     33140833556726612843670199370326434013561, 33140833556726612843670270864970518520185] := by decide
  have hn : ((expected_names.map String.data).map name_code).Nodup := by
    rw [hm]; decide
  have h2 : expected_names.Nodup :=
    List.Nodup.of_map String.data (List.Nodup.of_map name_code hn)
  exact ⟨h1, h2, by rw [h1]; exact List.Nodup.of_map name_code hn⟩
